import Mathlib

/-!
Verification of the key-value object-storage facade of the
`khulnasoft/pkg.khulnasoft.com` repository: binding resolution and
capability validation, hierarchical key composition, streaming item
accessors, and the standardized storage error wrapper.

The repository ships the unit tests of the facade
(`packages/app/server/utils/__tests__/bucket.test.ts` and
`__tests__/driver.test.ts`) while the implementation modules
(`bucket.ts`, `driver.ts`) are not part of the provided sources, so the
operations below are modelled from the specification (sections 4.1-4.5)
and from the behaviour those tests pin down.
-/

namespace PkgStorage

/-- Modelled from the spec: JavaScript truthiness on a key segment
(`undefined`/`null` are `none`, a string `s` is `some s`); the key
composer drops `undefined`, `null` and empty-string segments, exactly
the segments `Array.prototype.filter(Boolean)` removes. -/
def jsTruthy : Option String → Bool
  | none => false
  | some s => s != ""

/-- Modelled from the spec: the list of segments that survive the
filtering step of `joinKeys` (the implementation module is missing;
the test suite mocks it as `keys.filter(Boolean).join(":")`). -/
def realSegments (segs : List (Option String)) : List String :=
  (segs.filter jsTruthy).filterMap id

/-- Modelled from the spec: the key composer `joinKeys` of section 4.3,
missing from the sources; it filters out `undefined`, `null` and
empty-string segments and joins the remaining segments with `":"`. -/
def joinKeys (segs : List (Option String)) : String :=
  String.intercalate ":" (realSegments segs)

/-- Modelled from the spec: the Storage Error value of section 3,
`{ driverName, message, cause? }`, with the displayed message already
formatted; the cause payload type is arbitrary. -/
structure StorageError (ε : Type) where
  message : String
  cause : Option ε
deriving Repr, DecidableEq

/-- Modelled from the spec: the error wrapper `createUnstorageError` of
`driver.ts` (module missing from the sources, section 4.2); the
displayed message is exactly `[unstorage] [<driverName>] <message>` and
a supplied cause is attached, not stringified into the message. -/
def createUnstorageError (driverName message : String) (cause : Option ε) :
    StorageError ε :=
  { message := "[unstorage] [" ++ driverName ++ "] " ++ message
    cause := cause }

/-- Modelled from the spec: a bucket descriptor `{ key, base }` of
section 3; `base` is the fully composed prefix. -/
structure BucketDescriptor where
  key : String
  base : String
deriving Repr, DecidableEq

/-- Modelled from the spec: the fixed namespace root `baseKey` of
`bucket.ts` (module missing from the sources); the tests pin it to
`"bucket"`. -/
def baseKey : String := "bucket"

/-- Modelled from the spec: the root bucket descriptor (`useBucket`),
whose base is the fixed namespace root. -/
def useBucket : BucketDescriptor := { key := baseKey, base := baseKey }

/-- Modelled from the spec: a child bucket declares a short `key` and
computes `base = joinKey(parent.base, key)` (section 4.4). -/
def mkChildBucket (parent : BucketDescriptor) (key : String) :
    BucketDescriptor :=
  { key := key, base := joinKeys [some parent.base, some key] }

/-- Modelled from the spec: the workflow-artifacts child bucket. -/
def useWorkflowsBucket : BucketDescriptor := mkChildBucket useBucket "workflow"

/-- Modelled from the spec: the package-tarballs child bucket. -/
def usePackagesBucket : BucketDescriptor := mkChildBucket useBucket "package"

/-- Modelled from the spec: the templates child bucket. -/
def useTemplatesBucket : BucketDescriptor := mkChildBucket useBucket "template"

/-- Modelled from the spec: the cursors child bucket. -/
def useCursorsBucket : BucketDescriptor := mkChildBucket useBucket "cursor"

/-- Modelled from the spec: the download-timestamps child bucket. -/
def useDownloadedAtBucket : BucketDescriptor :=
  mkChildBucket useBucket "downloaded-at"

/-- Modelled from the spec: the production marker of the environment
tag (section 4.4). -/
def productionMarker : String := "production"

/-- Modelled from the spec: the bucket binding-name rule of `useBinding`
in `bucket.ts` (module missing from the sources); the tests pin the
production binding name to `"PROD_CR_BUCKET"` and the non-production
one to `"CR_BUCKET"`. -/
def pickBindingName (envTag : String) : String :=
  if envTag == productionMarker then "PROD_CR_BUCKET" else "CR_BUCKET"

/-- Modelled from the spec: a resolved binding value as seen by the
duck-typed capability check of section 4.1 — either `null`/`undefined`,
or an object recording whether it exposes a callable `get`, `put` and
`delete`; `payload` stands for every other property the object carries
(extra methods such as `list`/`head`, custom data). -/
inductive BindingVal (α : Type) where
  | nullv : BindingVal α
  | obj (hasGet hasPut hasDelete : Bool) (payload : α) : BindingVal α
deriving Repr, DecidableEq

/-- Modelled from the spec: a binding reference of section 4.1 — a
direct handle or a string name to be resolved. -/
inductive BindingRef (α : Type) where
  | byName (name : String) : BindingRef α
  | direct (v : BindingVal α) : BindingRef α
deriving Repr, DecidableEq

/-- Modelled from the spec: the ambient lookup environment of section
4.1 — a flat global registry (`globalThis`) and the nested `__env__`
mapping (an absent `__env__` is the constantly-`none` mapping). -/
structure GlobalEnv (α : Type) where
  globals : String → Option (BindingVal α)
  env : String → Option (BindingVal α)

/-- Modelled from the spec: lookup of a string binding name — the flat
global registry first, then `__env__`; first match wins, no merging. -/
def lookupBinding (g : GlobalEnv α) (name : String) :
    Option (BindingVal α) :=
  match g.globals name with
  | some v => some v
  | none => g.env name

/-- Modelled from the spec: the driver tag under which the resolver of
`driver.ts` (module missing from the sources) reports its failures; the
spec does not pin the tag itself, only the message body. -/
def driverTag : String := "cloudflare"

/-- Modelled from the spec: the Storage Error thrown for a binding that
resolved to nothing or to `null`/`undefined`; its message identifies
the binding name (the tests match it against `Invalid binding`). -/
def invalidBindingError (name : String) : StorageError Unit :=
  createUnstorageError driverTag ("Invalid binding `" ++ name ++ "`.") none

/-- Modelled from the spec: the Storage Error thrown for a resolved
binding missing a required capability; its message names the missing
capability (the tests match it against `` `<cap>` key is missing ``). -/
def missingCapError (name cap : String) : StorageError Unit :=
  createUnstorageError driverTag
    ("Invalid binding `" ++ name ++ "`: `" ++ cap ++ "` key is missing.")
    none

/-- Modelled from the spec: the placeholder binding name used in error
messages when the reference was a direct handle rather than a name. -/
def directBindingLabel : String := "[binding]"

/-- Modelled from the spec: capability validation of section 4.1 — the
value must be non-null and expose callable `get`, `put` and `delete`,
checked in that order, failing on the first missing capability. -/
def validateBinding (name : String) (v : BindingVal α) :
    Except (StorageError Unit) (BindingVal α) :=
  match v with
  | .nullv => .error (invalidBindingError name)
  | .obj hasGet hasPut hasDelete payload =>
    if hasGet = false then .error (missingCapError name "get")
    else if hasPut = false then .error (missingCapError name "put")
    else if hasDelete = false then .error (missingCapError name "delete")
    else .ok (.obj hasGet hasPut hasDelete payload)

/-- Modelled from the spec: the binding resolver `getBinding` of
`driver.ts` (module missing from the sources, section 4.1) — a direct
handle is validated and returned as-is; a string name is looked up in
the flat global registry, then in `__env__`, and a name resolving to
nothing yields a Storage Error identifying that name. -/
def getBinding (g : GlobalEnv α) (ref : BindingRef α) :
    Except (StorageError Unit) (BindingVal α) :=
  match ref with
  | .direct v => validateBinding directBindingLabel v
  | .byName name =>
    match lookupBinding g name with
    | none => .error (invalidBindingError name)
    | some v => validateBinding name v

/-- Modelled from the spec: the R2 resolver `getR2Binding` of
`driver.ts` (module missing from the sources) — same lookup and
validation as `getBinding`, defaulting the binding name to `"BUCKET"`
when no reference is supplied. -/
def getR2Binding (g : GlobalEnv α) (ref : Option (BindingRef α)) :
    Except (StorageError Unit) (BindingVal α) :=
  getBinding g (ref.getD (BindingRef.byName "BUCKET"))

/-- Modelled from the spec: one put call performed against the backend
binding — composed key, the caller's stream, and the caller's options
value (absent options forwarded as `none`, the `undefined` of the
source). -/
structure PutCall (σ ρ : Type) where
  key : String
  stream : σ
  options : Option ρ
deriving Repr, DecidableEq

/-- Modelled from the spec: `setItemStream` of `bucket.ts` (module
missing from the sources, section 4.5) — it composes
`joinKey(base, key)` and calls the backend's put with the stream and
pass-through options; the result is the list of put calls performed, so
that call count and arguments are observable. -/
def setItemStream (base key : String) (stream : σ) (options : Option ρ) :
    List (PutCall σ ρ) :=
  [{ key := joinKeys [some base, some key]
     stream := stream
     options := options }]

/-- Modelled from the spec: the result object of a backend get — a body
stream plus backend-specific metadata (size, etag stand for it). -/
structure R2ObjectBody (σ : Type) where
  body : σ
  size : Nat
  etag : String
deriving Repr, DecidableEq

/-- Modelled from the spec: the read side of a resolved backend binding
— `get(key, options?)` yields the object or `none`, the backend's
"not found" signal. -/
structure R2GetBinding (σ γ : Type) where
  get : String → Option γ → Option (R2ObjectBody σ)

/-- Modelled from the spec: `getItemStream` of `bucket.ts` (module
missing from the sources, section 4.5) — it composes the key, calls the
backend's get, normalizes the backend's "not found" signal to the
explicit absent value, and on a hit returns only the body stream. -/
def getItemStream (b : R2GetBinding σ γ) (base key : String)
    (options : Option γ) : Option σ :=
  match b.get (joinKeys [some base, some key]) options with
  | none => none
  | some o => some o.body

/-- A concrete read binding whose get always reports "not found", used
to witness the accessor theorems. -/
def exMissBinding : R2GetBinding Nat Unit := ⟨fun _ _ => none⟩

/-- A concrete read binding whose get always yields an object with body
`7` and some metadata, used to witness the accessor theorems. -/
def exHitBinding : R2GetBinding Nat Unit :=
  ⟨fun _ _ => some { body := 7, size := 3, etag := "tag" }⟩

/-- A concrete lookup environment used to witness the resolver
theorems: one fully capable binding registered under `"MY_BINDING"` in
the flat globals, one under `"BUCKET"`, and one reachable only through
`__env__` under `"ENV_BINDING"`. -/
def exEnv : GlobalEnv Unit where
  globals := fun name =>
    if name = "MY_BINDING" then some (.obj true true true ())
    else if name = "BUCKET" then some (.obj true true true ())
    else none
  env := fun name =>
    if name = "ENV_BINDING" then some (.obj true true true ()) else none

/-- Character-level view of the tail of a colon-join: each remaining
part contributes one separator followed by its characters. -/
def joinTailData : List (List Char) → List Char
  | [] => []
  | s :: rest => ':' :: (s ++ joinTailData rest)

/-- Character-level view of a colon-join of parts: the first part's
characters followed by the joined tail. -/
def joinData : List (List Char) → List Char
  | [] => []
  | s :: rest => s ++ joinTailData rest

end PkgStorage

namespace PkgStorage

/-- C7: the root bucket descriptor has base `"bucket"`, every child
bucket has base `joinKey(parent.base, key)`, and the five children with
keys `workflow`, `package`, `template`, `cursor` and `downloaded-at`
have bases `bucket:workflow`, `bucket:package`, `bucket:template`,
`bucket:cursor` and `bucket:downloaded-at`. -/
theorem bucket_descriptor_bases :
    useBucket.base = "bucket" ∧
    (∀ parent key, (mkChildBucket parent key).base =
      joinKeys [some parent.base, some key]) ∧
    useWorkflowsBucket.key = "workflow" ∧
    useWorkflowsBucket.base = "bucket:workflow" ∧
    usePackagesBucket.key = "package" ∧
    usePackagesBucket.base = "bucket:package" ∧
    useTemplatesBucket.key = "template" ∧
    useTemplatesBucket.base = "bucket:template" ∧
    useCursorsBucket.key = "cursor" ∧
    useCursorsBucket.base = "bucket:cursor" ∧
    useDownloadedAtBucket.key = "downloaded-at" ∧
    useDownloadedAtBucket.base = "bucket:downloaded-at" := by
  refine ⟨by decide, fun parent key => rfl, ?_⟩
  decide

/-- C8: the binding-name rule selects `"PROD_CR_BUCKET"` exactly when
the environment tag equals the production marker `"production"`, and
`"CR_BUCKET"` for every other tag; flipping the tag between the two
cases flips the selection, and no third name is ever selected. -/
theorem pickBindingName_two_tier (envTag : String) :
    (envTag = productionMarker → pickBindingName envTag = "PROD_CR_BUCKET") ∧
    (envTag ≠ productionMarker → pickBindingName envTag = "CR_BUCKET") ∧
    (pickBindingName envTag = "PROD_CR_BUCKET" ∨
      pickBindingName envTag = "CR_BUCKET") ∧
    (envTag ≠ productionMarker →
      pickBindingName envTag ≠ pickBindingName productionMarker) := by
  have hp : pickBindingName productionMarker = "PROD_CR_BUCKET" := by decide
  by_cases h : envTag = productionMarker
  · subst h
    exact ⟨fun _ => hp, fun hc => absurd rfl hc, Or.inl hp,
      fun hc => absurd rfl hc⟩
  · have hb : (envTag == productionMarker) = false := by
      simpa using h
    have hc : pickBindingName envTag = "CR_BUCKET" := by
      simp [pickBindingName, hb]
    refine ⟨fun he => absurd he h, fun _ => hc, Or.inr hc, fun _ => ?_⟩
    rw [hc, hp]
    decide

/-- C8 witness: at the concrete tags `"production"` and `"development"`
the rule selects the production and non-production names respectively. -/
theorem pickBindingName_two_tier_witness :
    pickBindingName "production" = "PROD_CR_BUCKET" ∧
    pickBindingName "development" = "CR_BUCKET" :=
  ⟨(pickBindingName_two_tier "production").1 rfl,
   (pickBindingName_two_tier "development").2.1 (by decide)⟩

/-- C9: the error wrapper produces the displayed message
`[unstorage] [<driverName>] <message>` with the fixed facade namespace
`unstorage`; an empty message still yields the fully applied format
string, ending in a trailing space, and a supplied cause is attached
unchanged, never appended to the message text. -/
theorem createUnstorageError_message_format {ε : Type}
    (driverName message : String) (cause : Option ε) :
    (createUnstorageError driverName message cause).message =
      "[unstorage] [" ++ driverName ++ "] " ++ message ∧
    (createUnstorageError driverName message cause).cause = cause ∧
    (createUnstorageError driverName "" cause).message =
      "[unstorage] [" ++ driverName ++ "] " ∧
    (createUnstorageError driverName "" cause).message.data.getLast? =
      some ' ' ∧
    (createUnstorageError driverName message cause).message =
      (createUnstorageError driverName message (none : Option ε)).message := by
  refine ⟨rfl, rfl, by simp [createUnstorageError], ?_, rfl⟩
  have h : (createUnstorageError driverName "" cause).message.data =
      ("[unstorage] [" ++ driverName).data ++ "] ".data := by
    show ("[unstorage] [" ++ driverName ++ "] " ++ "").data = _
    simp [String.data_append]
  rw [h, List.getLast?_append]
  rfl

/-- C4: resolving a string binding name consults the flat global
registry first and `__env__` only on a miss (first match wins, no
merging), and a name resolving in neither source yields a Storage Error
whose message contains that binding name. -/
theorem getBinding_name_resolution {α : Type} (g : GlobalEnv α)
    (name : String) :
    (∀ v, g.globals name = some v →
      getBinding g (.byName name) = validateBinding name v) ∧
    (g.globals name = none → ∀ v, g.env name = some v →
      getBinding g (.byName name) = validateBinding name v) ∧
    (g.globals name = none → g.env name = none →
      getBinding g (.byName name) = .error (invalidBindingError name) ∧
      name.data <:+: (invalidBindingError name).message.data) := by
  refine ⟨fun v hv => ?_, fun hg v hv => ?_, fun hg he => ⟨?_, ?_⟩⟩
  · simp [getBinding, lookupBinding, hv]
  · simp [getBinding, lookupBinding, hg, hv]
  · simp [getBinding, lookupBinding, hg, he]
  · refine ⟨("[unstorage] [" ++ driverTag ++ "] " ++ "Invalid binding `").data,
      "`.".data, ?_⟩
    simp [invalidBindingError, createUnstorageError]

/-- C4 witness: in the concrete environment `exEnv`, resolving
`"MY_BINDING"` hits the flat globals, resolving `"ENV_BINDING"` falls
through to `__env__`, and resolving `"MISSING"` produces the Storage
Error naming `"MISSING"`. -/
theorem getBinding_name_resolution_witness :
    exEnv.globals "MY_BINDING" = some (.obj true true true ()) ∧
    getBinding exEnv (.byName "MY_BINDING") =
      validateBinding "MY_BINDING" (.obj true true true ()) ∧
    exEnv.globals "ENV_BINDING" = none ∧
    exEnv.env "ENV_BINDING" = some (.obj true true true ()) ∧
    getBinding exEnv (.byName "ENV_BINDING") =
      validateBinding "ENV_BINDING" (.obj true true true ()) ∧
    exEnv.globals "MISSING" = none ∧
    exEnv.env "MISSING" = none ∧
    getBinding exEnv (.byName "MISSING") =
      .error (invalidBindingError "MISSING") :=
  ⟨by decide,
   (getBinding_name_resolution exEnv "MY_BINDING").1 _ (by decide),
   by decide, by decide,
   (getBinding_name_resolution exEnv "ENV_BINDING").2.1 (by decide) _
     (by decide),
   by decide, by decide,
   ((getBinding_name_resolution exEnv "MISSING").2.2 (by decide)
     (by decide)).1⟩

/-- C5: capability validation fails exactly on `null`/`undefined` or a
missing callable `get`, `put` or `delete`, reporting the single first
missing capability in the fixed order get, put, delete — in particular
a binding missing both `put` and `delete` is reported for `put` — and
the error message names only that capability. -/
theorem getBinding_capability_validation {α : Type} (g : GlobalEnv α)
    (hp hd : Bool) (payload : α) :
    getBinding g (.direct .nullv) =
      .error (invalidBindingError directBindingLabel) ∧
    getBinding g (.direct (.obj false hp hd payload)) =
      .error (missingCapError directBindingLabel "get") ∧
    getBinding g (.direct (.obj true false hd payload)) =
      .error (missingCapError directBindingLabel "put") ∧
    getBinding g (.direct (.obj true true false payload)) =
      .error (missingCapError directBindingLabel "delete") ∧
    getBinding g (.direct (.obj true true true payload)) =
      .ok (.obj true true true payload) ∧
    (missingCapError directBindingLabel "put").message =
      "[unstorage] [cloudflare] Invalid binding `[binding]`: `put` key is missing." :=
  ⟨rfl, rfl, rfl, rfl, rfl, by decide⟩

/-- C6: a direct object exposing callable `get`, `put` and `delete` is
returned by `getBinding` exactly as it was passed, whatever additional
payload it carries. -/
theorem getBinding_direct_identity {α : Type} (g : GlobalEnv α)
    (payload : α) :
    getBinding g (.direct (.obj true true true payload)) =
      .ok (.obj true true true payload) := rfl

/-- C10: called with no reference, `getR2Binding` resolves the default
binding name `"BUCKET"` through the same lookup and validation as
`getBinding`, and a caller-supplied reference overrides the default. -/
theorem getR2Binding_default_name {α : Type} (g : GlobalEnv α) :
    getR2Binding g none = getBinding g (.byName "BUCKET") ∧
    (∀ ref, getR2Binding g (some ref) = getBinding g ref) ∧
    (∀ payload, g.globals "BUCKET" = some (.obj true true true payload) →
      getR2Binding g none = .ok (.obj true true true payload)) := by
  refine ⟨rfl, fun ref => rfl, fun payload h => ?_⟩
  show getBinding g (.byName "BUCKET") = _
  simp [getBinding, lookupBinding, h, validateBinding]

/-- C10 witness: in the concrete environment `exEnv`, which registers a
fully capable binding under `"BUCKET"`, `getR2Binding` with no
reference resolves that binding. -/
theorem getR2Binding_default_name_witness :
    exEnv.globals "BUCKET" = some (.obj true true true ()) ∧
    getR2Binding exEnv none = .ok (.obj true true true ()) :=
  ⟨by decide, (getR2Binding_default_name exEnv).2.2 () (by decide)⟩

/-- C2: for non-empty base and key, `setItemStream` performs exactly
one backend put call, whose key is `base ++ ":" ++ key`, whose stream
is the caller's stream, and whose options value is forwarded unmodified
— `none` (the `undefined` of omitted options) included. -/
theorem setItemStream_put_once {σ ρ : Type} (base key : String)
    (stream : σ) (options : Option ρ) (hb : base ≠ "") (hk : key ≠ "") :
    setItemStream base key stream options =
      [{ key := base ++ ":" ++ key
         stream := stream
         options := options }] := by
  have hb' : (base != "") = true := bne_iff_ne.mpr hb
  have hk' : (key != "") = true := bne_iff_ne.mpr hk
  have h1 : realSegments [some base, some key] = [base, key] := by
    simp [realSegments, jsTruthy, hb', hk']
  simp only [setItemStream, joinKeys, h1]
  rfl

/-- C2 witness: at base `"base"`, key `"key"`, stream `0` and omitted
options, the single put call carries key `"base:key"`, the stream, and
`none` as options. -/
theorem setItemStream_put_once_witness :
    ("base" : String) ≠ "" ∧ ("key" : String) ≠ "" ∧
    setItemStream "base" "key" (0 : Nat) (none : Option Unit) =
      [{ key := "base:key", stream := 0, options := none }] :=
  ⟨by decide, by decide,
   (setItemStream_put_once "base" "key" (0 : Nat) (none : Option Unit)
     (by decide) (by decide)).trans (by decide)⟩

/-- C3: when the backend's get for the composed key yields no object,
`getItemStream` returns the explicit absent value `none` (not an error);
when it yields an object, `getItemStream` returns exactly that object's
body stream, independent of every other metadata field. -/
theorem getItemStream_absent_and_body {σ γ : Type} (b : R2GetBinding σ γ)
    (base key : String) (options : Option γ) :
    (b.get (joinKeys [some base, some key]) options = none →
      getItemStream b base key options = none) ∧
    (∀ o, b.get (joinKeys [some base, some key]) options = some o →
      getItemStream b base key options = some o.body) ∧
    (∀ (body : σ) (size size' : Nat) (etag etag' : String),
      getItemStream ⟨fun _ _ => some { body := body, size := size, etag := etag }⟩
        base key options =
      getItemStream ⟨fun _ _ => some { body := body, size := size', etag := etag' }⟩
        base key options) := by
  refine ⟨fun h => ?_, fun o h => ?_, fun body size size' etag etag' => rfl⟩
  · simp [getItemStream, h]
  · simp [getItemStream, h]

/-- C3 witness: a backend reporting "not found" yields the absent value,
and a backend yielding an object with body `7` yields `some 7`, the
body alone. -/
theorem getItemStream_absent_and_body_witness :
    exMissBinding.get (joinKeys [some "base", some "key"]) none = none ∧
    getItemStream exMissBinding "base" "key" none = none ∧
    exHitBinding.get (joinKeys [some "base", some "key"]) none =
      some { body := 7, size := 3, etag := "tag" } ∧
    getItemStream exHitBinding "base" "key" none = some 7 :=
  ⟨rfl,
   (getItemStream_absent_and_body exMissBinding "base" "key" none).1 rfl,
   rfl,
   (getItemStream_absent_and_body exHitBinding "base" "key" none).2.1
     { body := 7, size := 3, etag := "tag" } rfl⟩

lemma intercalate_go_data (as : List String) (acc : String) :
    (String.intercalate.go acc ":" as).data =
      acc.data ++ joinTailData (as.map String.data) := by
  induction as generalizing acc with
  | nil => simp [String.intercalate.go, joinTailData]
  | cons a t ih =>
    rw [String.intercalate.go, ih]
    simp [joinTailData, String.data_append, List.append_assoc]

lemma intercalate_data (l : List String) :
    (String.intercalate ":" l).data = joinData (l.map String.data) := by
  cases l with
  | nil => rfl
  | cons a t =>
    show (String.intercalate.go a ":" t).data = _
    rw [intercalate_go_data]
    rfl

lemma chain'_noncolon (l : List Char) (h : ':' ∉ l) :
    l.Chain' (fun a b => a ≠ ':' ∨ b ≠ ':') := by
  induction l with
  | nil => exact List.chain'_nil
  | cons a t ih =>
    refine List.chain'_cons'.mpr
      ⟨fun y _ => Or.inl fun he => h (he ▸ List.mem_cons_self a t),
       ih fun hm => h (List.mem_cons_of_mem a hm)⟩

lemma joinData_count_chain (ps : List (List Char))
    (hne : ∀ p ∈ ps, p ≠ []) (hcf : ∀ p ∈ ps, ':' ∉ p) :
    (joinData ps).count ':' = ps.length - 1 ∧
    (joinData ps).Chain' (fun a b => a ≠ ':' ∨ b ≠ ':') ∧
    (∀ c, (joinData ps).head? = some c → c ≠ ':') := by
  induction ps with
  | nil => exact ⟨rfl, List.chain'_nil, fun c hc => by simp [joinData] at hc⟩
  | cons p ps ih =>
    have hpne : p ≠ [] := hne p (by simp)
    have hpcf : ':' ∉ p := hcf p (by simp)
    cases ps with
    | nil =>
      refine ⟨?_, ?_, ?_⟩
      · simp [joinData, joinTailData, List.count_eq_zero.mpr hpcf]
      · simpa [joinData, joinTailData] using chain'_noncolon p hpcf
      · intro c hc
        simp only [joinData, joinTailData, List.append_nil] at hc
        exact fun he => hpcf (he ▸ List.mem_of_mem_head? (by simp [hc]))
    | cons q qs =>
      have ihh := ih (fun x hx => hne x (by simp [hx]))
        (fun x hx => hcf x (by simp [hx]))
      have hjd : joinData (p :: q :: qs) = p ++ ':' :: joinData (q :: qs) := rfl
      refine ⟨?_, ?_, ?_⟩
      · rw [hjd, List.count_append, List.count_cons_self,
          List.count_eq_zero.mpr hpcf, ihh.1]
        simp
      · rw [hjd]
        refine List.chain'_append.mpr ⟨chain'_noncolon p hpcf, ?_, ?_⟩
        · refine List.chain'_cons'.mpr ⟨fun y hy => ?_, ihh.2.1⟩
          exact Or.inr (ihh.2.2 y (by simpa using hy))
        · intro x hx y _
          exact Or.inl fun he => hpcf (he ▸ List.mem_of_mem_getLast? hx)
      · intro c hc
        rw [hjd] at hc
        cases p with
        | nil => exact absurd rfl hpne
        | cons a t =>
          have hca : c = a := by simpa using hc.symm
          exact fun he => hpcf (by simp [← hca, he])

lemma realSegments_ne_empty (segs : List (Option String)) :
    ∀ s ∈ realSegments segs, s ≠ "" := by
  intro s hs
  simp only [realSegments, List.mem_filterMap, id_eq] at hs
  obtain ⟨a, ha, rfl⟩ := hs
  have ht := (List.mem_filter.mp ha).2
  simpa [jsTruthy] using ht

lemma data_ne_nil_of_ne_empty {s : String} (h : s ≠ "") : s.data ≠ [] := by
  intro hd
  exact h (String.ext (hd.trans rfl))

/-- C1 (amended): `joinKeys` drops `undefined`/`null`/empty segments
and joins the remainder with `":"` in order; and whenever no surviving
segment itself contains the separator character, the output contains
exactly `(#non-empty segments - 1)` separator characters and never two
adjacent separators. (Unrestricted, the separator-count clause fails:
see the counterexample with a segment containing `":"`.) -/
theorem joinKeys_separator_count (segs : List (Option String))
    (h : ∀ s ∈ realSegments segs, ':' ∉ s.data) :
    joinKeys segs = String.intercalate ":" (realSegments segs) ∧
    (joinKeys segs).data.count ':' = (realSegments segs).length - 1 ∧
    (joinKeys segs).data.Chain' (fun a b => a ≠ ':' ∨ b ≠ ':') := by
  have hdata : (joinKeys segs).data =
      joinData ((realSegments segs).map String.data) :=
    intercalate_data (realSegments segs)
  have hne : ∀ p ∈ (realSegments segs).map String.data, p ≠ [] := by
    intro p hp
    obtain ⟨s, hs, rfl⟩ := List.mem_map.mp hp
    exact data_ne_nil_of_ne_empty (realSegments_ne_empty segs s hs)
  have hcf : ∀ p ∈ (realSegments segs).map String.data, ':' ∉ p := by
    intro p hp
    obtain ⟨s, hs, rfl⟩ := List.mem_map.mp hp
    exact h s hs
  obtain ⟨h1, h2, _⟩ := joinData_count_chain _ hne hcf
  refine ⟨rfl, ?_, ?_⟩
  · rw [hdata, h1, List.length_map]
  · rw [hdata]
    exact h2

/-- C1 witness: on the segment list `[some "a", none, some "", some "b"]`
no surviving segment contains `":"`, the output has exactly one
separator (two non-empty segments), and no two adjacent separators. -/
theorem joinKeys_separator_count_witness :
    (∀ s ∈ realSegments [some "a", none, some "", some "b"],
      ':' ∉ s.data) ∧
    ((joinKeys [some "a", none, some "", some "b"]).data.count ':' =
      (realSegments [some "a", none, some "", some "b"]).length - 1 ∧
     (joinKeys [some "a", none, some "", some "b"]).data.Chain'
       (fun a b => a ≠ ':' ∨ b ≠ ':')) :=
  ⟨by decide,
   (joinKeys_separator_count [some "a", none, some "", some "b"]
     (by decide)).2.1,
   (joinKeys_separator_count [some "a", none, some "", some "b"]
     (by decide)).2.2⟩

/-- C1 counterexample: for the input `[some "a:b"]` there is one
non-empty segment, so the claim predicts `1 - 1 = 0` separators, yet
the output `"a:b"` contains one; and the inputs `some "a:"` and
`some "b"` produce the doubled separator `"a::b"`. -/
theorem joinKeys_separator_claim_counterexample :
    (realSegments [some "a:b"]).length - 1 = 0 ∧
    (joinKeys [some "a:b"]).data.count ':' = 1 ∧
    joinKeys [some "a:", some "b"] = "a::b" := by decide

end PkgStorage
